import Mathlib

/-!
Shallow embedding of the iced_aw sources under verification:
src/pure/date_picker.rs (the DatePicker widget glue) and
src/style/time_picker.rs (the Default time-picker style sheet).
Host-toolkit types (iced_native, iced_pure) are modelled abstractly;
pieces of the repository that are not under src/ are modelled from the
spec and carry a doc comment saying so.
-/

namespace IcedAW

/-- iced_native Length: Fill, FillPortion(u16), Shrink, Units(u16). -/
inductive Length where
  | Fill
  | FillPortion (factor : Nat)
  | Shrink
  | Units (units : Nat)
deriving DecidableEq, Repr

/-- iced_native Point with rational coordinates in place of f32. -/
structure Point where
  x : ℚ
  y : ℚ
deriving DecidableEq, Repr

/-- iced_native Rectangle with rational coordinates in place of f32. -/
structure Rectangle where
  x : ℚ
  y : ℚ
  width : ℚ
  height : ℚ
deriving DecidableEq, Repr

/-- Rectangle.center_x: x plus half the width. -/
def Rectangle.center_x (r : Rectangle) : ℚ := r.x + r.width / 2

/-- Rectangle.center_y: y plus half the height. -/
def Rectangle.center_y (r : Rectangle) : ℚ := r.y + r.height / 2

/-- iced_native Layout, reduced to what date_picker.rs reads of it:
its bounds rectangle. -/
structure Layout where
  bounds : Rectangle
deriving DecidableEq, Repr

/-- iced_native event Status. -/
inductive EventStatus where
  | Ignored
  | Captured
deriving DecidableEq, Repr

/-- Modelled from the spec: the Date value of src/core/date.rs, which is
not under src/; simple calendar data. -/
structure Date where
  year : Int
  month : Nat
  day : Nat
deriving DecidableEq, Repr

/-- Modelled from the spec: the date-picker State of
src/native/date_picker.rs, which is not under src/; it holds the date the
picker shows. -/
structure State where
  date : Date
deriving DecidableEq, Repr

/-- Modelled from the spec: State::now() builds a state from the current
date; the clock is passed explicitly as the argument today. -/
def State.now (today : Date) : State := ⟨today⟩

/-- iced_pure widget Tag, Tag::of over a state type; the only state type
in play is the date-picker State, other tags are kept apart by a number. -/
inductive Tag where
  | datePickerState
  | other (n : Nat)
deriving DecidableEq, Repr

/-- iced_pure tree State, a type-erased box; modelled as the sum of the
state types in play. -/
inductive TreeState where
  | datePicker (s : State)
  | other (n : Nat)
deriving DecidableEq, Repr

/-- iced_pure widget Tree: a tag, a state box and child trees. -/
inductive Tree where
  | mk (tag : Tag) (state : TreeState) (children : List Tree)

/-- The tag of a tree. -/
def Tree.tag : Tree → Tag
  | .mk t _ _ => t

/-- The state of a tree. -/
def Tree.state : Tree → TreeState
  | .mk _ s _ => s

/-- The children of a tree. -/
def Tree.children : Tree → List Tree
  | .mk _ _ c => c

/-- Replace the children of a tree, keeping tag and state. -/
def Tree.withChildren : Tree → List Tree → Tree
  | .mk t s _, cs => .mk t s cs

/-- The abstract host-toolkit types a widget is generic over. -/
structure HostTypes where
  Renderer : Type
  Node : Type
  Limits : Type
  Event : Type
  Clipboard : Type
  Shell : Type

/-- Modelled from the spec: the date-picker StyleSheet trait object of
src/style/date_picker.rs, which is not under src/; a boxed trait object
whose Default impl yields the default style sheet. -/
inductive DPStyleSheet where
  | default
  | custom (n : Nat)
deriving DecidableEq, Repr

/-- Modelled from the spec: the DatePickerOverlay of
src/native/overlay/date_picker.rs, which is not under src/;
DatePickerOverlay::new captures the picker state, the cancel message, the
submit function, the position and the style sheet. -/
structure DatePickerOverlay (M : Type) where
  state : State
  on_cancel : M
  on_submit : Date → M
  position : Point
  style_sheet : DPStyleSheet

/-- An iced_native overlay Element: either the overlay the date picker
builds, or an overlay coming from some other widget. -/
inductive OverlayElement (M : Type) where
  | datePicker (d : DatePickerOverlay M)
  | foreign (n : Nat)

/-- An iced_pure Element as date_picker.rs uses it: the widget methods the
DatePicker delegates to, plus the tree that Tree::new builds from it and
the diff it performs on a matching tree. -/
structure Element (M : Type) (H : HostTypes) where
  tag : Tag
  tree : Tree
  diffTree : Tree → Tree
  width : Length
  height : Length
  layout : H.Renderer → H.Limits → H.Node
  on_event : Tree → H.Event → Layout → Point → H.Renderer → H.Clipboard → H.Shell →
      EventStatus × Tree × H.Clipboard × H.Shell
  overlay : Tree → Layout → H.Renderer → Option (OverlayElement M)

/-- Tree::new over an element. -/
def Tree.new {M : Type} {H : HostTypes} (e : Element M H) : Tree := e.tree

/-- Modelled from the spec: iced_pure Tree::diff of a single tree against
a new element; when the tags match the element diffs the tree, otherwise
the tree is rebuilt from the element. -/
def Tree.diffWith {M : Type} {H : HostTypes} (t : Tree) (e : Element M H) : Tree :=
  if t.tag = e.tag then e.diffTree t else Tree.new e

/-- Modelled from the spec: iced_pure Tree::diff_children reconciles the
children of a tree against a list of new elements: extra children are
dropped, paired children are diffed, missing children are built fresh. -/
def Tree.diff_children {M : Type} {H : HostTypes} (t : Tree) (new : List (Element M H)) : Tree :=
  t.withChildren
    (List.zipWith (fun c e => Tree.diffWith c e) t.children new
      ++ (new.drop t.children.length).map Tree.new)

/-- The DatePicker widget of src/pure/date_picker.rs: the show_picker
flag, the underlay element, the cancel message, the submit function and
the style sheet. -/
structure DatePicker (M : Type) (H : HostTypes) where
  show_picker : Bool
  underlay : Element M H
  on_cancel : M
  on_submit : Date → M
  style_sheet : DPStyleSheet

/-- DatePicker::new, src/pure/date_picker.rs lines 71 to 86: stores the
arguments and a default style sheet. -/
def DatePicker.new {M : Type} {H : HostTypes} (show_picker : Bool) (underlay : Element M H)
    (on_cancel : M) (on_submit : Date → M) : DatePicker M H :=
  { show_picker := show_picker
    underlay := underlay
    on_cancel := on_cancel
    on_submit := on_submit
    style_sheet := DPStyleSheet.default }

/-- DatePicker::style, src/pure/date_picker.rs lines 88 to 92: replaces
the style sheet. -/
def DatePicker.style {M : Type} {H : HostTypes} (w : DatePicker M H)
    (style_sheet : DPStyleSheet) : DatePicker M H :=
  { w with style_sheet := style_sheet }

/-- Widget::tag, src/pure/date_picker.rs: Tag::of over the date-picker
State type. -/
def DatePicker.tag {M : Type} {H : HostTypes} (_ : DatePicker M H) : Tag :=
  Tag.datePickerState

/-- Widget::state, src/pure/date_picker.rs: a fresh tree state holding
State::now(); the clock is the explicit argument today. -/
def DatePicker.state {M : Type} {H : HostTypes} (_ : DatePicker M H) (today : Date) :
    TreeState :=
  TreeState.datePicker (State.now today)

/-- Widget::children, src/pure/date_picker.rs: one tree built from the
underlay. -/
def DatePicker.children {M : Type} {H : HostTypes} (w : DatePicker M H) : List Tree :=
  [Tree.new w.underlay]

/-- Widget::diff, src/pure/date_picker.rs: diff the children of the given
tree against the single underlay element. -/
def DatePicker.diff {M : Type} {H : HostTypes} (w : DatePicker M H) (t : Tree) : Tree :=
  Tree.diff_children t [w.underlay]

/-- Widget::width, src/pure/date_picker.rs: the width of the underlay. -/
def DatePicker.width {M : Type} {H : HostTypes} (w : DatePicker M H) : Length :=
  w.underlay.width

/-- Widget::height, src/pure/date_picker.rs lines 120 to 122: the source
returns the WIDTH of the underlay here, not its height. -/
def DatePicker.height {M : Type} {H : HostTypes} (w : DatePicker M H) : Length :=
  w.underlay.width

/-- Widget::layout, src/pure/date_picker.rs: delegate to the underlay with
the same renderer and limits. -/
def DatePicker.layout {M : Type} {H : HostTypes} (w : DatePicker M H)
    (renderer : H.Renderer) (limits : H.Limits) : H.Node :=
  w.underlay.layout renderer limits

/-- Widget::on_event, src/pure/date_picker.rs lines 132 to 151: forward to
the underlay with the first child of the tree; indexing an empty child
list is a panic, modelled as none. -/
def DatePicker.on_event {M : Type} {H : HostTypes} (w : DatePicker M H) (state : Tree)
    (ev : H.Event) (lay : Layout) (cursor : Point) (renderer : H.Renderer)
    (clipboard : H.Clipboard) (shell : H.Shell) :
    Option (EventStatus × Tree × H.Clipboard × H.Shell) :=
  match state.children with
  | [] => none
  | c :: rest =>
    let res := w.underlay.on_event c ev lay cursor renderer clipboard shell
    some (res.1, state.withChildren (res.2.1 :: rest), res.2.2.1, res.2.2.2)

/-- Widget::overlay, src/pure/date_picker.rs lines 189 to 218: downcast
the tree state to the picker State (a failed downcast is a panic,
modelled as none); when show_picker is false delegate to the underlay
with the first child (an empty child list is a panic, modelled as none);
otherwise build a DatePickerOverlay positioned at the center of the
layout bounds. -/
def DatePicker.overlay {M : Type} {H : HostTypes} (w : DatePicker M H) (state : Tree)
    (lay : Layout) (renderer : H.Renderer) : Option (Option (OverlayElement M)) :=
  match state.state with
  | TreeState.datePicker picker_state =>
    if !w.show_picker then
      match state.children with
      | [] => none
      | c :: _ => some (w.underlay.overlay c lay renderer)
    else
      let bounds := lay.bounds
      let position : Point := ⟨bounds.center_x, bounds.center_y⟩
      some (some (OverlayElement.datePicker
        { state := picker_state
          on_cancel := w.on_cancel
          on_submit := w.on_submit
          position := position
          style_sheet := w.style_sheet }))
  | TreeState.other _ => none

/-- iced_native Color with rational channels in place of f32. -/
structure Color where
  r : ℚ
  g : ℚ
  b : ℚ
  a : ℚ
deriving DecidableEq, Repr

/-- Color::BLACK. -/
def Color.BLACK : Color := ⟨0, 0, 0, 1⟩

/-- Color::WHITE. -/
def Color.WHITE : Color := ⟨1, 1, 1, 1⟩

/-- Color::from_rgb: full alpha. -/
def Color.from_rgb (r g b : ℚ) : Color := ⟨r, g, b, 1⟩

/-- The From impl of Color for a three-entry rgb array: full alpha. -/
def Color.fromRgbSlice (r g b : ℚ) : Color := ⟨r, g, b, 1⟩

/-- iced_native Background. -/
inductive Background where
  | color (c : Color)
deriving DecidableEq, Repr

/-- The Into impl of Background for Color. -/
def Color.toBackground (c : Color) : Background := Background.color c

namespace TimePicker

/-- The Appearance of a TimePicker, src/style/time_picker.rs lines 8 to
44. -/
structure Appearance where
  background : Background
  border_radius : ℚ
  border_width : ℚ
  border_color : Color
  text_color : Color
  clock_number_color : Color
  clock_number_background : Color
  clock_dots_color : Color
  clock_hand_color : Color
  clock_hand_width : ℚ
deriving DecidableEq, Repr

/-- Default::active, src/style/time_picker.rs lines 71 to 83. -/
def Default.active : Appearance :=
  { background := Color.toBackground Color.WHITE
    border_radius := 15
    border_width := 1
    border_color := Color.BLACK
    text_color := Color.BLACK
    clock_number_color := Color.BLACK
    clock_number_background := Color.WHITE
    clock_dots_color := Color.fromRgbSlice 0.87 0.87 0.87
    clock_hand_color := Color.fromRgbSlice 0.87 0.87 0.87
    clock_hand_width := 1 }

/-- Default::selected, src/style/time_picker.rs lines 85 to 90. -/
def Default.selected : Appearance :=
  { Default.active with
    clock_number_background := Color.fromRgbSlice 0.87 0.87 0.87 }

/-- Default::hovered, src/style/time_picker.rs lines 92 to 97. -/
def Default.hovered : Appearance :=
  { Default.active with
    clock_number_background := Color.fromRgbSlice 0.87 0.87 0.87 }

/-- Default::focused, src/style/time_picker.rs lines 99 to 104. -/
def Default.focused : Appearance :=
  { Default.active with
    border_color := Color.from_rgb 0.5 0.5 0.5 }

end TimePicker

/-! Concrete fixtures used by witnesses and by the concrete failing-input
theorem: a host whose abstract types are all Unit, a small underlay
element whose width and height differ, and trees built for it. -/

/-- A concrete host with every abstract type Unit. -/
def unitHost : HostTypes :=
  { Renderer := Unit, Node := Unit, Limits := Unit, Event := Unit,
    Clipboard := Unit, Shell := Unit }

/-- A concrete leaf tree for the fixture element. -/
def leafTree : Tree := Tree.mk (Tag.other 0) (TreeState.other 0) []

/-- A concrete underlay element over the unit host whose width is Shrink
and whose height is Fill. -/
def shrinkWideElem : Element Nat unitHost :=
  { tag := Tag.other 0
    tree := leafTree
    diffTree := fun t => t
    width := Length.Shrink
    height := Length.Fill
    layout := fun _ _ => ()
    on_event := fun t _ _ _ _ c s => (EventStatus.Captured, t, c, s)
    overlay := fun _ _ _ => none }

/-- A concrete date used by the fixtures. -/
def someDate : Date := ⟨2022, 5, 17⟩

/-- A concrete DatePicker over the fixture element with the picker shown. -/
def shownPicker : DatePicker Nat unitHost :=
  DatePicker.new true shrinkWideElem 0 (fun _ => 1)

/-- A concrete DatePicker over the fixture element with the picker hidden. -/
def hiddenPicker : DatePicker Nat unitHost :=
  DatePicker.new false shrinkWideElem 0 (fun _ => 1)

/-- A concrete widget tree holding a picker state and one child. -/
def pickerTree : Tree :=
  Tree.mk Tag.datePickerState (TreeState.datePicker (State.now someDate)) [leafTree]

/-- A concrete layout whose bounds have distinct coordinates. -/
def someLayout : Layout := ⟨⟨10, 20, 30, 40⟩⟩

/-- The position carried by an overlay result when it is the date-picker
overlay. -/
def overlayPosition {M : Type} : Option (Option (OverlayElement M)) → Option Point
  | some (some (OverlayElement.datePicker d)) => some d.position
  | _ => none

/-! Theorems settling the claims. -/

/-- C1: the claim says Widget::height returns the height of the wrapped
underlay; on the fixture widget, whose underlay has width Shrink and
height Fill, the code returns Shrink, the width of the underlay, not
Fill, its height. -/
theorem height_returns_underlay_width_not_height :
    DatePicker.height shownPicker = Length.Shrink ∧
    shownPicker.underlay.height = Length.Fill ∧
    DatePicker.height shownPicker ≠ shownPicker.underlay.height :=
  ⟨rfl, rfl, by decide⟩

/-- C2: Widget::overlay yields the date-picker overlay built from the
widget fields exactly when show_picker is true, and when it is false the
result is exactly the delegation to the underlay with the first child
tree. -/
theorem overlay_show_picker_spec {M : Type} {H : HostTypes}
    (w : DatePicker M H) (t : Tree) (lay : Layout) (r : H.Renderer)
    (ps : State) (c : Tree) (cs : List Tree)
    (hs : t.state = TreeState.datePicker ps) (hc : t.children = c :: cs) :
    w.overlay t lay r =
      some (if w.show_picker then
              some (OverlayElement.datePicker
                { state := ps
                  on_cancel := w.on_cancel
                  on_submit := w.on_submit
                  position := ⟨lay.bounds.center_x, lay.bounds.center_y⟩
                  style_sheet := w.style_sheet })
            else w.underlay.overlay c lay r) := by
  rcases t with ⟨tg, st, ch⟩
  simp only [Tree.state] at hs
  simp only [Tree.children] at hc
  subst hs; subst hc
  cases hw : w.show_picker <;>
    simp [DatePicker.overlay, Tree.state, Tree.children, hw]

/-- C2 witness: the overlay theorem applied to the shown fixture picker. -/
theorem overlay_show_picker_spec_witness :
    DatePicker.overlay shownPicker pickerTree someLayout () =
      some (if shownPicker.show_picker then
              some (OverlayElement.datePicker
                { state := State.now someDate
                  on_cancel := shownPicker.on_cancel
                  on_submit := shownPicker.on_submit
                  position := ⟨someLayout.bounds.center_x, someLayout.bounds.center_y⟩
                  style_sheet := shownPicker.style_sheet })
            else shownPicker.underlay.overlay leafTree someLayout ()) :=
  overlay_show_picker_spec shownPicker pickerTree someLayout ()
    (State.now someDate) leafTree [] rfl rfl

/-- C3: with show_picker true, the produced overlay sits at the center of
the layout bounds. -/
theorem overlay_position_center {M : Type} {H : HostTypes}
    (w : DatePicker M H) (t : Tree) (lay : Layout) (r : H.Renderer) (ps : State)
    (hs : t.state = TreeState.datePicker ps) (hshow : w.show_picker = true) :
    overlayPosition (w.overlay t lay r) =
      some ⟨lay.bounds.center_x, lay.bounds.center_y⟩ := by
  rcases t with ⟨tg, st, ch⟩
  simp only [Tree.state] at hs
  subst hs
  simp [DatePicker.overlay, Tree.state, hshow, overlayPosition]

/-- C3 witness: the center theorem applied to the shown fixture picker. -/
theorem overlay_position_center_witness :
    overlayPosition (DatePicker.overlay shownPicker pickerTree someLayout ()) =
      some ⟨someLayout.bounds.center_x, someLayout.bounds.center_y⟩ :=
  overlay_position_center shownPicker pickerTree someLayout ()
    (State.now someDate) rfl rfl

/-- C4: Widget::on_event forwards the event unchanged to the underlay
with the first child of the tree and returns the status the underlay
returns. -/
theorem on_event_delegates {M : Type} {H : HostTypes}
    (w : DatePicker M H) (t : Tree) (ev : H.Event) (lay : Layout) (cur : Point)
    (r : H.Renderer) (clip : H.Clipboard) (sh : H.Shell) (c : Tree) (cs : List Tree)
    (hc : t.children = c :: cs) :
    w.on_event t ev lay cur r clip sh =
      some ((w.underlay.on_event c ev lay cur r clip sh).1,
        t.withChildren ((w.underlay.on_event c ev lay cur r clip sh).2.1 :: cs),
        (w.underlay.on_event c ev lay cur r clip sh).2.2.1,
        (w.underlay.on_event c ev lay cur r clip sh).2.2.2) := by
  rcases t with ⟨tg, st, ch⟩
  simp only [Tree.children] at hc
  subst hc
  simp [DatePicker.on_event, Tree.children]

/-- C4 witness: the delegation theorem applied to the fixture picker,
tree and event. -/
theorem on_event_delegates_witness :
    DatePicker.on_event shownPicker pickerTree () someLayout ⟨0, 0⟩ () () () =
      some ((shownPicker.underlay.on_event leafTree () someLayout ⟨0, 0⟩ () () ()).1,
        pickerTree.withChildren
          ((shownPicker.underlay.on_event leafTree () someLayout ⟨0, 0⟩ () () ()).2.1 :: []),
        (shownPicker.underlay.on_event leafTree () someLayout ⟨0, 0⟩ () () ()).2.2.1,
        (shownPicker.underlay.on_event leafTree () someLayout ⟨0, 0⟩ () () ()).2.2.2) :=
  on_event_delegates shownPicker pickerTree () someLayout ⟨0, 0⟩ () () ()
    leafTree [] rfl

/-- C5: Widget::layout is exactly the underlay layout at the same
renderer and limits, and Widget::width is the underlay width. -/
theorem layout_width_delegate {M : Type} {H : HostTypes}
    (w : DatePicker M H) (r : H.Renderer) (l : H.Limits) :
    w.layout r l = w.underlay.layout r l ∧ w.width = w.underlay.width :=
  ⟨rfl, rfl⟩

/-- C6: Widget::children is the single tree built from the underlay, and
Widget::diff reconciles the children of the given tree against exactly
that one underlay element: an existing first child is diffed against it,
all further children are dropped, and a missing child is built fresh. -/
theorem children_diff_single {M : Type} {H : HostTypes}
    (w : DatePicker M H) (t : Tree) :
    w.children = [Tree.new w.underlay] ∧
    w.children.length = 1 ∧
    w.diff t = t.withChildren
      (match t.children with
       | [] => [Tree.new w.underlay]
       | c :: _ => [Tree.diffWith c w.underlay]) := by
  refine ⟨rfl, rfl, ?_⟩
  rcases t with ⟨tg, st, ch⟩
  cases ch <;>
    simp [DatePicker.diff, Tree.diff_children, Tree.children, Tree.withChildren]

/-- C7: Widget::tag is the tag of the date-picker State type, and
Widget::state is a fresh tree state from State::now at the current date,
the same for every widget value. -/
theorem tag_and_state_fresh {M : Type} {H : HostTypes}
    (w w2 : DatePicker M H) (today : Date) :
    w.tag = Tag.datePickerState ∧
    w.state today = TreeState.datePicker (State.now today) ∧
    w.state today = w2.state today :=
  ⟨rfl, rfl, rfl⟩

/-- C8: for the Default time-picker sheet, selected and hovered agree,
and both are active with only clock_number_background turned grey. -/
theorem selected_hovered_eq :
    TimePicker.Default.selected = TimePicker.Default.hovered ∧
    TimePicker.Default.selected =
      { TimePicker.Default.active with
        clock_number_background := Color.fromRgbSlice 0.87 0.87 0.87 } :=
  ⟨rfl, rfl⟩

/-- C9: for the Default time-picker sheet, focused keeps every field of
active except border_color, which becomes rgb half grey. -/
theorem focused_changes_only_border_color :
    TimePicker.Default.focused.background = TimePicker.Default.active.background ∧
    TimePicker.Default.focused.border_radius = TimePicker.Default.active.border_radius ∧
    TimePicker.Default.focused.border_width = TimePicker.Default.active.border_width ∧
    TimePicker.Default.focused.text_color = TimePicker.Default.active.text_color ∧
    TimePicker.Default.focused.clock_number_color =
      TimePicker.Default.active.clock_number_color ∧
    TimePicker.Default.focused.clock_number_background =
      TimePicker.Default.active.clock_number_background ∧
    TimePicker.Default.focused.clock_dots_color =
      TimePicker.Default.active.clock_dots_color ∧
    TimePicker.Default.focused.clock_hand_color =
      TimePicker.Default.active.clock_hand_color ∧
    TimePicker.Default.focused.clock_hand_width =
      TimePicker.Default.active.clock_hand_width ∧
    TimePicker.Default.focused.border_color = Color.from_rgb 0.5 0.5 0.5 :=
  ⟨rfl, rfl, rfl, rfl, rfl, rfl, rfl, rfl, rfl, rfl⟩

/-- C10: DatePicker::new stores the default style sheet, and the style
builder replaces the style sheet and nothing else. -/
theorem new_default_style_and_style_frame {M : Type} {H : HostTypes}
    (sp : Bool) (u : Element M H) (onc : M) (ons : Date → M)
    (w : DatePicker M H) (ss : DPStyleSheet) :
    (DatePicker.new sp u onc ons).style_sheet = DPStyleSheet.default ∧
    (w.style ss).show_picker = w.show_picker ∧
    (w.style ss).underlay = w.underlay ∧
    (w.style ss).on_cancel = w.on_cancel ∧
    (w.style ss).on_submit = w.on_submit ∧
    (w.style ss).style_sheet = ss :=
  ⟨rfl, rfl, rfl, rfl, rfl, rfl⟩

end IcedAW
